import Mathlib

/-!
Verification of the KVT in-memory transactional key-value engine and its
JanusGraph key-column-value adapter.

The development shallowly embeds the C++ sources:
* `KVTSimple` models `KVTManagerWrapperSimple` from
  `janusgraph-inmemory/kvt.backup/kvt_mem.h` (the serialized engine variant:
  a single `std::map<std::string,std::string> table_data`, a single live
  transaction with `write_set` / `delete_set`, keys qualified as
  `table_name + '\0' + key`).
* `KVTBatch` models the default `batch_execute` of
  `KVTManagerWrapperInterface` from `janusgraph-kvt/kvt/kvt_mem.h`.
* `serialization` models `serialize_columns` / `deserialize_columns` and the
  composite-key helpers of the JanusGraph adapters.
* `KVTOCC` models the optimistic variant `KVTManagerWrapperOCC`, whose method
  bodies are not part of the sources; it is modelled from the specification.

Byte strings (`std::string` used as opaque byte sequences) are modelled as
`List Nat`, one `Nat` per byte, ordered lexicographically exactly as
`std::string::operator<` orders unsigned chars.
-/

/-- A byte string (C++ `std::string` treated as an opaque byte sequence). -/
abbrev Str : Type := List Nat

deriving instance DecidableEq for Except

namespace KVTCore

/-- Lexicographic strict order on byte strings, as `std::string::operator<`
(element-wise compare, shorter prefix first). -/
def ltLex : Str → Str → Bool
  | [], [] => false
  | [], _ :: _ => true
  | _ :: _, [] => false
  | a :: as, b :: bs => if a < b then true else if b < a then false else ltLex as bs

/-- Lookup in an association list of byte strings (models `find` on a C++ map
keyed by `std::string`). -/
def mapFind : List (Str × Str) → Str → Option Str
  | [], _ => none
  | (k', v') :: rest, k => if k' = k then some v' else mapFind rest k

/-- `std::map::operator[] = v`: ordered insert, assigning when the key exists. -/
def mapInsertAssign : List (Str × Str) → Str → Str → List (Str × Str)
  | [], k, v => [(k, v)]
  | (k', v') :: rest, k, v =>
    if ltLex k k' then (k, v) :: (k', v') :: rest
    else if ltLex k' k then (k', v') :: mapInsertAssign rest k v
    else (k, v) :: rest

/-- `std::map::insert`: ordered insert that KEEPS the existing mapped value
when the key is already present (it does not overwrite). -/
def mapInsertSkip : List (Str × Str) → Str → Str → List (Str × Str)
  | [], k, v => [(k, v)]
  | (k', v') :: rest, k, v =>
    if ltLex k k' then (k, v) :: (k', v') :: rest
    else if ltLex k' k then (k', v') :: mapInsertSkip rest k v
    else (k', v') :: rest

/-- `std::map::erase(key)`.  A C++ map holds each key at most once; erasing
every occurrence from the association list coincides with erasing the unique
binding on every list a map can denote. -/
def mapErase : List (Str × Str) → Str → List (Str × Str)
  | [], _ => []
  | (k', v') :: rest, k =>
    if k' = k then mapErase rest k else (k', v') :: mapErase rest k

/-- Membership in a set of byte strings (models `unordered_set::find`). -/
def setMem : List Str → Str → Bool
  | [], _ => false
  | k' :: rest, k => if k' = k then true else setMem rest k

/-- `unordered_set::insert`. -/
def setInsert (s : List Str) (k : Str) : List Str :=
  if setMem s k then s else k :: s

/-- `unordered_set::erase`. -/
def setErase : List Str → Str → List Str
  | [], _ => []
  | k' :: rest, k => if k' = k then setErase rest k else k' :: setErase rest k

end KVTCore

namespace KVTSimple

open KVTCore

/-- Failure outcomes of `KVTManagerWrapperSimple` operations.  The C++ variant
signals failure by returning `false` together with an `error_msg` string; the
constructors record the distinct messages the code can produce.  Note that the
delete-set branch of `get` and the absent-key branch both produce the same
"Key <key> not found" message, which is modelled by both mapping to
`keyNotFound`. -/
inductive Msg : Type
  | txNotFound (txId : Nat)
  | txAlreadyRunning
  | tableExists (name : Str)
  | keyNotFound (key : Str)
deriving DecidableEq

/-- State of `KVTManagerWrapperSimple`: the committed `table_data` map (kept in
key order, as `std::map` does), the table registry, the id counters, the
current-transaction slot and the live transaction's buffered sets. -/
structure State : Type where
  tableData : List (Str × Str)
  tableToId : List (Str × Nat)
  nextTableId : Nat
  nextTxId : Nat
  currentTxId : Nat
  writeSet : List (Str × Str)
  deleteSet : List Str
deriving DecidableEq

/-- The constructor `KVTManagerWrapperSimple()`. -/
def initState : State :=
  { tableData := [], tableToId := [], nextTableId := 1, nextTxId := 1,
    currentTxId := 0, writeSet := [], deleteSet := [] }

/-- `make_table_key`: `table_name + '\0' + key`. -/
def makeTableKey (tableName key : Str) : Str :=
  tableName ++ [0] ++ key

/-- Registry lookup inside `create_table`. -/
def regFind : List (Str × Nat) → Str → Option Nat
  | [], _ => none
  | (n', i) :: rest, n => if n' = n then some i else regFind rest n

/-- `KVTManagerWrapperSimple::create_table`.  Registers the name and returns
the fresh id; the partition method argument is accepted but not used by this
variant. -/
def create_table (s : State) (tableName pm : Str) : State × Except Msg Nat :=
  match regFind s.tableToId tableName with
  | some _ => (s, .error (.tableExists tableName))
  | none =>
    let _ := pm
    ({ s with tableToId := (tableName, s.nextTableId) :: s.tableToId,
              nextTableId := s.nextTableId + 1 },
     .ok s.nextTableId)

/-- `KVTManagerWrapperSimple::start_transaction`: only one transaction may be
live at a time. -/
def start_transaction (s : State) : State × Except Msg Nat :=
  if s.currentTxId ≠ 0 then (s, .error .txAlreadyRunning)
  else
    ({ s with currentTxId := s.nextTxId, nextTxId := s.nextTxId + 1 },
     .ok s.nextTxId)

/-- `KVTManagerWrapperSimple::commit_transaction`: installs the write-set into
`table_data` via `std::map::insert` (which skips keys that already exist),
erases the delete-set keys, clears both sets and the current-transaction
slot. -/
def commit_transaction (s : State) (txId : Nat) : State × Except Msg Unit :=
  if s.currentTxId ≠ txId then (s, .error (.txNotFound txId))
  else
    let td := s.writeSet.foldl (fun m kv => mapInsertSkip m kv.1 kv.2) s.tableData
    let td := s.deleteSet.foldl (fun m k => mapErase m k) td
    ({ s with tableData := td, writeSet := [], deleteSet := [], currentTxId := 0 },
     .ok ())

/-- `KVTManagerWrapperSimple::rollback_transaction`. -/
def rollback_transaction (s : State) (txId : Nat) : State × Except Msg Unit :=
  if s.currentTxId ≠ txId then (s, .error (.txNotFound txId))
  else ({ s with writeSet := [], deleteSet := [], currentTxId := 0 }, .ok ())

/-- `KVTManagerWrapperSimple::get`: for a live transaction consult the
write-set, then the delete-set (failing with the "Key not found" message),
then the committed table.  One-shot (`txId = 0`) reads go straight to the
table.  The returned state is the state the C++ method leaves behind. -/
def get (s : State) (txId : Nat) (tableName key : Str) :
    State × Except Msg Str :=
  if txId ≠ 0 ∧ s.currentTxId ≠ txId then (s, .error (.txNotFound txId))
  else
    let tk := makeTableKey tableName key
    match (if txId ≠ 0 then mapFind s.writeSet tk else none) with
    | some v => (s, .ok v)
    | none =>
      if txId ≠ 0 ∧ setMem s.deleteSet tk then (s, .error (.keyNotFound key))
      else
        match mapFind s.tableData tk with
        | none => (s, .error (.keyNotFound key))
        | some v => (s, .ok v)

/-- `KVTManagerWrapperSimple::set`: one-shot writes assign directly into
`table_data`; transactional writes remove the key from the delete-set and
buffer the value in the write-set. -/
def set (s : State) (txId : Nat) (tableName key value : Str) :
    State × Except Msg Unit :=
  if txId ≠ 0 ∧ s.currentTxId ≠ txId then (s, .error (.txNotFound txId))
  else
    let tk := makeTableKey tableName key
    if txId = 0 then
      ({ s with tableData := mapInsertAssign s.tableData tk value }, .ok ())
    else
      ({ s with deleteSet := setErase s.deleteSet tk,
                writeSet := mapInsertAssign s.writeSet tk value }, .ok ())

/-- `KVTManagerWrapperSimple::del`: one-shot deletes erase directly from
`table_data`; transactional deletes record the key in the delete-set and drop
it from the write-set. -/
def del (s : State) (txId : Nat) (tableName key : Str) :
    State × Except Msg Unit :=
  if txId ≠ 0 ∧ s.currentTxId ≠ txId then (s, .error (.txNotFound txId))
  else
    let tk := makeTableKey tableName key
    if txId = 0 then
      ({ s with tableData := mapErase s.tableData tk }, .ok ())
    else
      ({ s with deleteSet := setInsert s.deleteSet tk,
                writeSet := mapErase s.writeSet tk }, .ok ())

/-- The scan loop of `KVTManagerWrapperSimple::scan`: walk the in-range table
entries while fewer than `limit` results have been produced, skipping keys in
the delete-set and substituting write-set values.  The emitted key is
`itr->first`, i.e. the table-qualified key. -/
def scanLoop (entries : List (Str × Str)) (ds : List Str)
    (ws : List (Str × Str)) (limit : Nat) : List (Str × Str) :=
  match entries, limit with
  | [], _ => []
  | _, 0 => []
  | (k, v) :: rest, limit =>
    if setMem ds k then scanLoop rest ds ws limit
    else
      match mapFind ws k with
      | some w => (k, w) :: scanLoop rest ds ws (limit - 1)
      | none => (k, v) :: scanLoop rest ds ws (limit - 1)

/-- `KVTManagerWrapperSimple::scan`: iterate `table_data` from
`lower_bound(table_key_start)` to `upper_bound(table_key_end)` (on the sorted
map this is exactly the entries with `start ≤ k ≤ end`), merging the live
transaction's delete-set and write-set.  Mirrors the code's guard, which
rejects a one-shot scan while a transaction is live. -/
def scan (s : State) (txId : Nat) (tableName keyStart keyEnd : Str)
    (limit : Nat) : State × Except Msg (List (Str × Str)) :=
  if txId = 0 ∧ s.currentTxId ≠ txId then (s, .error (.txNotFound txId))
  else
    let tks := makeTableKey tableName keyStart
    let tke := makeTableKey tableName keyEnd
    let inRange := s.tableData.filter fun p => !ltLex p.1 tks && !ltLex tke p.1
    (s, .ok (scanLoop inRange s.deleteSet s.writeSet limit))

end KVTSimple

namespace KVTBatch

/-- `KVTError` from `janusgraph-kvt/kvt/kvt_mem.h` (the `KVT_NOT_INITIALIZED`
enumerator is rendered `KVT_NOT_READY` here). -/
inductive KVTError : Type
  | SUCCESS
  | KVT_NOT_READY
  | TABLE_ALREADY_EXISTS
  | TABLE_NOT_FOUND
  | INVALID_PARTITION_METHOD
  | TRANSACTION_NOT_FOUND
  | TRANSACTION_ALREADY_RUNNING
  | KEY_NOT_FOUND
  | KEY_IS_DELETED
  | KEY_IS_LOCKED
  | TRANSACTION_HAS_STALE_DATA
  | ONE_SHOT_WRITE_NOT_ALLOWED
  | ONE_SHOT_DELETE_NOT_ALLOWED
  | BATCH_NOT_FULLY_SUCCESS
  | UNKNOWN_ERROR
deriving DecidableEq

/-- `enum KVT_OPType`. -/
inductive OpType : Type
  | OP_UNKNOWN
  | OP_GET
  | OP_SET
  | OP_DEL
deriving DecidableEq

/-- `struct KVTOp`. -/
structure KVTOp : Type where
  op : OpType
  tableName : Str
  key : Str
  value : Str
deriving DecidableEq

/-- `struct KVTOpResult` (the value field is only meaningful for gets). -/
structure KVTOpResult : Type where
  error : KVTError
  value : Str
deriving DecidableEq

/-- The engine interface the default `batch_execute` dispatches through: the
virtual `get` / `set` / `del` of `KVTManagerWrapperInterface`, as state
transformers over an abstract engine state `σ`. -/
structure Engine (σ : Type) : Type where
  get : σ → Nat → Str → Str → σ × KVTError × Str
  set : σ → Nat → Str → Str → Str → σ × KVTError
  del : σ → Nat → Str → Str → σ × KVTError

/-- The per-operation dispatch of `batch_execute`'s `switch (op.op)`. -/
def execOp {σ : Type} (E : Engine σ) (txId : Nat) (st : σ) (op : KVTOp) :
    σ × KVTOpResult :=
  match op.op with
  | .OP_GET =>
    let r := E.get st txId op.tableName op.key
    (r.1, ⟨r.2.1, r.2.2⟩)
  | .OP_SET =>
    let r := E.set st txId op.tableName op.key op.value
    (r.1, ⟨r.2, []⟩)
  | .OP_DEL =>
    let r := E.del st txId op.tableName op.key
    (r.1, ⟨r.2, []⟩)
  | .OP_UNKNOWN => (st, ⟨.UNKNOWN_ERROR, []⟩)

/-- The `for` loop of `batch_execute`: run every operation in sequence,
collecting one result per operation (operations after a failing one are still
executed). -/
def batchLoop {σ : Type} (E : Engine σ) (txId : Nat) :
    σ → List KVTOp → σ × List KVTOpResult
  | st, [] => (st, [])
  | st, op :: rest =>
    let r := execOp E txId st op
    let rs := batchLoop E txId r.1 rest
    (rs.1, r.2 :: rs.2)

/-- `KVTManagerWrapperInterface::batch_execute`: run the loop, then return
`SUCCESS` when every per-op result succeeded and `BATCH_NOT_FULLY_SUCCESS`
otherwise. -/
def batch_execute {σ : Type} (E : Engine σ) (txId : Nat) (st : σ)
    (ops : List KVTOp) : σ × List KVTOpResult × KVTError :=
  let r := batchLoop E txId st ops
  (r.1, r.2,
   if r.2.all (fun res => res.error = KVTError.SUCCESS) then KVTError.SUCCESS
   else KVTError.BATCH_NOT_FULLY_SUCCESS)

end KVTBatch

namespace serialization

open KVTCore

/-- `struct ColumnValue`. -/
structure ColumnValue : Type where
  column : Str
  value : Str
deriving DecidableEq

/-- `operator<` on `ColumnValue`: compare columns lexicographically. -/
def cvLt (a b : ColumnValue) : Bool := ltLex a.column b.column

/-- `std::is_sorted` over a column list with `operator<`: no adjacent pair is
strictly descending. -/
def sortedColsB : List ColumnValue → Bool
  | [] => true
  | [_] => true
  | a :: b :: rest => !cvLt b a && sortedColsB (b :: rest)

/-- Strictly ascending columns: sorted with pairwise-distinct columns, the
hypothesis of the Layout A round-trip property. -/
def strictSortedCols : List ColumnValue → Bool
  | [] => true
  | [_] => true
  | a :: b :: rest => cvLt a b && strictSortedCols (b :: rest)

/-- Writing a `uint32_t` little-endian, as `ss.write` of the 4-byte value;
the stored quantity is the `Nat` reduced modulo `2^32` (the `uint32_t`
conversion). -/
def le32 (n : Nat) : List Nat :=
  let m := n % 4294967296
  [m % 256, m / 256 % 256, m / 65536 % 256, m / 16777216]

/-- Reading 4 little-endian bytes as a `uint32_t` (`memcpy` + advance); `none`
when fewer than 4 bytes remain, mirroring `ptr + 4 > end`. -/
def read32 : List Nat → Option (Nat × List Nat)
  | b0 :: b1 :: b2 :: b3 :: rest =>
    some (b0 + 256 * b1 + 65536 * b2 + 16777216 * b3, rest)
  | _ => none

/-- The bytes `serialize_columns` emits for one column-value pair: 4-byte
length + column data + 4-byte length + value data.  `ss.write(data, len)`
writes exactly `len = size % 2^32` bytes, hence the `take`. -/
def encodePair (cv : ColumnValue) : List Nat :=
  le32 cv.column.length ++ cv.column.take (cv.column.length % 4294967296) ++
  le32 cv.value.length ++ cv.value.take (cv.value.length % 4294967296)

/-- `serialization::serialize_columns`: `CHECK(num_columns > 0)` on the
truncated `uint32_t` count, `CHECK(is_sorted)`, then the frame bytes.  A
failed `CHECK` throws, modelled as `Except.error`. -/
def serialize_columns (cols : List ColumnValue) : Except String (List Nat) :=
  if cols.length % 4294967296 = 0 then
    .error "Number of columns must be greater than 0"
  else if sortedColsB cols then
    .ok (le32 cols.length ++ cols.flatMap encodePair)
  else .error "Columns Must Be sorted before serialization"

/-- The parsing loop of `deserialize_columns`: parse up to `n` column-value
pairs; any bounds-check failure (`ptr + len > end`) executes `break`, i.e.
returns the pairs parsed so far without signalling an error. -/
def parseLoop : Nat → List Nat → List ColumnValue
  | 0, _ => []
  | n + 1, bytes =>
    match read32 bytes with
    | none => []
    | some (clen, r1) =>
      if r1.length < clen then []
      else
        match read32 (r1.drop clen) with
        | none => []
        | some (vlen, r3) =>
          if r3.length < vlen then []
          else ⟨r1.take clen, r3.take vlen⟩ :: parseLoop n (r3.drop vlen)

/-- `serialization::deserialize_columns`: reject empty input, read the
declared count (returning an empty result when fewer than 4 bytes remain),
parse, and reject a non-empty result whose columns are not sorted. -/
def deserialize_columns (data : List Nat) : Except String (List ColumnValue) :=
  if data.isEmpty then .error "Data is empty"
  else
    match read32 data with
    | none => .ok []
    | some (n, rest) =>
      let r := parseLoop n rest
      if r.isEmpty then .ok r
      else if sortedColsB r then .ok r
      else .error "Columns Must Be sorted before deserialization"

/-- `std::string::find(ch) != npos`: does the byte string contain the byte? -/
def byteMem : Str → Nat → Bool
  | [], _ => false
  | b :: rest, c => if b = c then true else byteMem rest c

/-- `serialization::make_composite_key` (throwing modelled as `Except.error`):
rejects an empty key or column or one containing the separator byte, else
returns `key · SEP · column`. -/
def make_composite_key (sep : Nat) (key column : Str) : Except String Str :=
  if byteMem key sep || byteMem column sep || key.isEmpty || column.isEmpty then
    .error "Key or column contains separator or is empty"
  else .ok (key ++ [sep] ++ column)

/-- `serialization::split_composite_key`: split at the first separator byte;
throws when the separator is absent. -/
def split_composite_key (sep : Nat) : Str → Except String (Str × Str)
  | [] => .error "Composite key is invalid"
  | b :: rest =>
    if b = sep then .ok ([], rest)
    else
      match split_composite_key sep rest with
      | .ok (k, c) => .ok (b :: k, c)
      | .error e => .error e

end serialization

namespace JGAdapter

open KVTCore serialization

/-- The separator of the `janusgraph-inmemory` adapter: `'\0'`. -/
def SEP_MEM : Nat := 0

/-- The result-collection loop of `get_all_columns` (composite-key layout):
split every scanned composite key, `CHECK` that the extracted key equals the
requested key (throwing otherwise), and collect `(column, value)` pairs. -/
def collectColumns (sep : Nat) (key : Str) :
    List (Str × Str) → Except String (List ColumnValue)
  | [] => .ok []
  | (ck, v) :: rest =>
    match split_composite_key sep ck with
    | .error e => .error e
    | .ok (ek, c) =>
      if ek = key then
        match collectColumns sep key rest with
        | .ok acc => .ok (⟨c, v⟩ :: acc)
        | .error e => .error e
      else .error "Composite key is not extracted correctly"

/-- `JanusGraphKVTAdapter::get_all_columns` of
`janusgraph-inmemory/kvt/janusgraph/janusgraph_kvt_adapter.h` (composite-key
layout): the scan start key is computed as `make_composite_key(key, "")`, the
end key as `key + char(SEP + 1)`, and the engine scan (abstracted as `scanF`)
is consulted with limit 10000; a scan failure yields the empty column list,
and exceptions from the helpers propagate as `Except.error`. -/
def get_all_columns_mem
    (scanF : Str → Str → Nat → Except String (List (Str × Str)))
    (key : Str) : Except String (List ColumnValue) :=
  match make_composite_key SEP_MEM key [] with
  | .error e => .error e
  | .ok startKey =>
    let endKey := key ++ [SEP_MEM + 1]
    match scanF startKey endKey 10000 with
    | .error _ => .ok []
    | .ok rs => collectColumns SEP_MEM key rs

end JGAdapter

namespace KVTOCC

open KVTCore KVTBatch

/-- A table entry of the OCC variant: value bytes plus the `int32_t`
metadata, which holds the entry's version. -/
structure Entry : Type where
  data : Str
  version : Int
deriving DecidableEq

/-- The OCC transaction context: observed versions in the read-set, buffered
writes (carrying the observed version when the key was lifted from the
read-set, `none` for blind writes), and buffered deletions. -/
structure Transaction : Type where
  readSet : List (Str × Int)
  writeSet : List (Str × Str × Option Int)
  deleteSet : List Str
deriving DecidableEq

/-- The OCC engine state: the committed entries (keyed by fully-qualified
key) and the live transaction contexts. -/
structure OCCState : Type where
  table : List (Str × Entry)
  txs : List (Nat × Transaction)
deriving DecidableEq

/-- Entry lookup. -/
def entryFind : List (Str × Entry) → Str → Option Entry
  | [], _ => none
  | (k', e) :: rest, k => if k' = k then some e else entryFind rest k

/-- Insert-or-assign of an entry. -/
def entryInsertAssign : List (Str × Entry) → Str → Entry → List (Str × Entry)
  | [], k, e => [(k, e)]
  | (k', e') :: rest, k, e =>
    if k' = k then (k, e) :: rest else (k', e') :: entryInsertAssign rest k e

/-- Erase an entry. -/
def entryErase : List (Str × Entry) → Str → List (Str × Entry)
  | [], _ => []
  | (k', e') :: rest, k => if k' = k then rest else (k', e') :: entryErase rest k

/-- Transaction-context lookup. -/
def txFind : List (Nat × Transaction) → Nat → Option Transaction
  | [], _ => none
  | (i, t) :: rest, txId => if i = txId then some t else txFind rest txId

/-- Discard a transaction context. -/
def txErase : List (Nat × Transaction) → Nat → List (Nat × Transaction)
  | [], _ => []
  | (i, t) :: rest, txId =>
    if i = txId then txErase rest txId else (i, t) :: txErase rest txId

/-- The version of a key's current entry, with an absent key reading as
version 0 (so an observed-absent key records 0 and a key that has appeared
since fails validation). -/
def currentVersion (table : List (Str × Entry)) (k : Str) : Int :=
  match entryFind table k with
  | some e => e.version
  | none => 0

/-- Modelled from the spec: the OCC commit-time validation phase of
`KVTManagerWrapperOCC` (whose method bodies are not among the sources; only
the class declaration in `janusgraph-kvt/kvt/kvt_mem.h` is).  Every key in
the read-set — including keys lifted into the write-set, which carry their
observed version — must have its current entry version equal to the observed
version, previously-absent keys (observed version 0) still reading 0. -/
def validate (table : List (Str × Entry)) (tx : Transaction) : Bool :=
  tx.readSet.all (fun p => currentVersion table p.1 = p.2) &&
  tx.writeSet.all (fun p =>
    match p.2.2 with
    | none => true
    | some obs => currentVersion table p.1 = obs)

/-- Modelled from the spec: `KVTManagerWrapperOCC::commit_transaction`, whose
body is not among the sources.  On validation failure the commit aborts with
`TRANSACTION_HAS_STALE_DATA`, installing nothing and discarding the context;
on success the writes are installed with version `max(observed, current) + 1`,
the deletions erased, and the context discarded. -/
def commit_transaction (s : OCCState) (txId : Nat) : OCCState × KVTError :=
  match txFind s.txs txId with
  | none => (s, .TRANSACTION_NOT_FOUND)
  | some tx =>
    if validate s.table tx then
      let t1 := tx.writeSet.foldl
        (fun t p =>
          entryInsertAssign t p.1
            ⟨p.2.1, max (p.2.2.getD 0) (currentVersion t p.1) + 1⟩)
        s.table
      let t2 := tx.deleteSet.foldl (fun t k => entryErase t k) t1
      ({ table := t2, txs := txErase s.txs txId }, .SUCCESS)
    else
      ({ s with txs := txErase s.txs txId }, .TRANSACTION_HAS_STALE_DATA)

end KVTOCC

/-! ### Concrete inputs used by the claim theorems

Byte values spell ASCII: 97 = a, 98 = b, 99 = c, 107 = k, 114 = r,
116 = t, 118 = v, 120 = x, 49 = 1, 50 = 2, 51 = 3. -/

/-- Table name "t". -/
def exTabT : Str := [116]

/-- Key "k". -/
def exKeyK : Str := [107]

/-- One-shot commit of ("t", "k") ↦ "v1". -/
def c1S1 : KVTSimple.State :=
  (KVTSimple.set KVTSimple.initState 0 exTabT exKeyK [118, 49]).1

/-- Transaction 1 started on top of `c1S1`. -/
def c1S2 : KVTSimple.State := (KVTSimple.start_transaction c1S1).1

/-- Transaction 1 buffers ("t", "k") ↦ "v2". -/
def c1S3 : KVTSimple.State := (KVTSimple.set c1S2 1 exTabT exKeyK [118, 50]).1

/-- Transaction 1 committed. -/
def c1S4 : KVTSimple.State := (KVTSimple.commit_transaction c1S3 1).1

/-- Transaction 1 started on the empty store. -/
def c2S1 : KVTSimple.State := (KVTSimple.start_transaction KVTSimple.initState).1

/-- Transaction 1 buffers a write to the brand-new key ("t", "k"). -/
def c2S2 : KVTSimple.State := (KVTSimple.set c2S1 1 exTabT exKeyK [118]).1

/-- Range table "r" created (scenario S4). -/
def c3S1 : KVTSimple.State :=
  (KVTSimple.create_table KVTSimple.initState [114] [114, 97, 110, 103, 101]).1

/-- One-shot set ("r", "a") ↦ "1". -/
def c3S2 : KVTSimple.State := (KVTSimple.set c3S1 0 [114] [97] [49]).1

/-- One-shot set ("r", "b") ↦ "2". -/
def c3S3 : KVTSimple.State := (KVTSimple.set c3S2 0 [114] [98] [50]).1

/-- One-shot set ("r", "c") ↦ "3". -/
def c3S4 : KVTSimple.State := (KVTSimple.set c3S3 0 [114] [99] [51]).1

/-- One-shot commit of ("t", "k") ↦ "v". -/
def c4S1 : KVTSimple.State :=
  (KVTSimple.set KVTSimple.initState 0 exTabT exKeyK [118]).1

/-- Transaction 1 started on top of `c4S1`. -/
def c4S2 : KVTSimple.State := (KVTSimple.start_transaction c4S1).1

/-- Transaction 1 deletes ("t", "k"). -/
def c4S3 : KVTSimple.State := (KVTSimple.del c4S2 1 exTabT exKeyK).1

/-- A single column-value pair whose value is 2^32 bytes long: the claim's
round-trip hypotheses (non-empty, sorted, distinct columns) hold, but the
`uint32_t` length written by `serialize_columns` wraps to 0. -/
def c6BadCols : List serialization.ColumnValue :=
  [⟨[97], List.replicate 4294967296 0⟩]

/-- A well-formed small frame: one column "a" ↦ "x". -/
def c6SmallCols : List serialization.ColumnValue := [⟨[97], [120]⟩]

/-- An inconsistent frame: the header declares 2 columns, but the bytes
contain only one (column "a", value "x"). -/
def c8Frame : List Nat := [2, 0, 0, 0, 1, 0, 0, 0, 97, 1, 0, 0, 0, 120]

/-- A consistent frame for the sortedness witness: 1 column "a" ↦ "x". -/
def c8GoodFrame : List Nat := [1, 0, 0, 0, 1, 0, 0, 0, 97, 1, 0, 0, 0, 120]

/-- An OCC transaction that observed key "k" at version 1. -/
def occExTx : KVTOCC.Transaction :=
  { readSet := [([107], 1)], writeSet := [], deleteSet := [] }

/-- An OCC state in which key "k" has meanwhile advanced to version 2 while
transaction 5 observed version 1. -/
def occExState : KVTOCC.OCCState :=
  { table := [([107], ⟨[118], 2⟩)], txs := [(5, occExTx)] }

/-! ### Claim theorems -/

/-- C10: in the serialized engine variant, `get` is observably side-effect
free — whether it succeeds or fails, it returns the engine state (committed
table data, write-set, delete-set, current-transaction slot and both id
counters) unchanged; this variant keeps no read-set and takes no locks. -/
theorem get_leaves_state_unchanged (s : KVTSimple.State) (txId : Nat)
    (tableName key : Str) : (KVTSimple.get s txId tableName key).1 = s := by
  unfold KVTSimple.get
  repeat first | rfl | split | dsimp only

/-- C1 (divergence demonstration): after a committed value "v1" for key
("t","k"), a transaction that buffers "v2" for the same key commits
successfully, yet the committed value is still "v1": the write-set is
installed with `std::map::insert`, which skips keys already present, so the
buffered value does not replace the earlier committed one. -/
theorem commit_insert_skips_existing_key :
    KVTCore.mapFind c1S3.writeSet (KVTSimple.makeTableKey exTabT exKeyK)
      = some [118, 50] ∧
    (KVTSimple.commit_transaction c1S3 1).2 = Except.ok () ∧
    KVTCore.mapFind c1S4.tableData (KVTSimple.makeTableKey exTabT exKeyK)
      = some [118, 49] := by
  decide

/-- C2 (divergence demonstration): transaction 1 buffers a write to key
("t","k") that has no committed entry; the key lies inside the scanned range
["a","z"], yet `scan` returns the empty list because the loop only walks
`table_data` and never merges write-set-only keys. -/
theorem scan_misses_writeset_only_key :
    KVTCore.mapFind c2S2.writeSet (KVTSimple.makeTableKey exTabT exKeyK)
      = some [118] ∧
    KVTCore.mapFind c2S2.tableData (KVTSimple.makeTableKey exTabT exKeyK)
      = none ∧
    (KVTSimple.scan c2S2 1 exTabT [97] [122] 10).2 = Except.ok [] := by
  decide

/-- C3 (divergence demonstration): scenario S4 — after one-shot sets of
"a" ↦ "1", "b" ↦ "2", "c" ↦ "3" on table "r", the one-shot scan over
["a","b"] is closed on both ends, sorted and limited, but each returned key
is the internal table-qualified encoding `r · '\0' · key`
([114,0,97] / [114,0,98]), not the caller-visible key ([97] / [98]). -/
theorem scan_returns_table_qualified_keys :
    (KVTSimple.scan c3S4 0 [114] [97] [98] 10).2
      = Except.ok [([114, 0, 97], [49]), ([114, 0, 98], [50])] ∧
    (KVTSimple.scan c3S4 0 [114] [97] [98] 10).2
      ≠ Except.ok [([97], [49]), ([98], [50])] := by
  decide

/-- C4 (counterexample): after `del` of key "k" in live transaction 1, `get`
fails — but with the same `Msg.keyNotFound` failure (error message
"Key k not found") that an absent key such as "x" produces; the serialized
variant emits no distinct KEY_IS_DELETED error. -/
theorem get_after_del_reports_key_not_found :
    (KVTSimple.get c4S3 1 exTabT exKeyK).2
      = Except.error (KVTSimple.Msg.keyNotFound exKeyK) ∧
    (KVTSimple.get c4S3 1 exTabT [120]).2
      = Except.error (KVTSimple.Msg.keyNotFound [120]) := by
  decide

/-- Looking up a key after erasing it from a map fails. -/
theorem mapFind_mapErase (l : List (Str × Str)) (k : Str) :
    KVTCore.mapFind (KVTCore.mapErase l k) k = none := by
  induction l with
  | nil => rfl
  | cons p rest ih =>
    obtain ⟨k', v'⟩ := p
    by_cases h : k' = k
    · simp [KVTCore.mapErase, h, ih]
    · simp [KVTCore.mapErase, KVTCore.mapFind, h, ih]

/-- A key just inserted into a set is a member. -/
theorem setMem_setInsert (s : List Str) (k : Str) :
    KVTCore.setMem (KVTCore.setInsert s k) k = true := by
  unfold KVTCore.setInsert
  by_cases h : KVTCore.setMem s k
  · simp [h]
  · simp [h, KVTCore.setMem]

/-- C4 (amended): in the serialized variant, after `del(T, table, K)` with no
intervening `set`, `get(T, table, K)` fails via the delete-set branch before
consulting the table — but the failure it reports is the same
`Msg.keyNotFound` ("Key K not found") that an absent key produces; this
variant has no distinct KEY_IS_DELETED error. -/
theorem get_after_del_fails (s : KVTSimple.State) (txId : Nat)
    (tableName key : Str) (htx : txId ≠ 0) (hcur : s.currentTxId = txId) :
    (KVTSimple.get (KVTSimple.del s txId tableName key).1 txId tableName key).2
      = Except.error (KVTSimple.Msg.keyNotFound key) := by
  have hdel : (KVTSimple.del s txId tableName key).1
      = { s with
            deleteSet :=
              KVTCore.setInsert s.deleteSet (KVTSimple.makeTableKey tableName key),
            writeSet :=
              KVTCore.mapErase s.writeSet (KVTSimple.makeTableKey tableName key) } := by
    simp [KVTSimple.del, hcur, htx]
  rw [hdel]
  simp [KVTSimple.get, hcur, htx, mapFind_mapErase, setMem_setInsert]

/-- C4 witness: the amended statement at the concrete state `c4S2`
(committed "k", live transaction 1). -/
theorem get_after_del_fails_witness :
    (KVTSimple.get (KVTSimple.del c4S2 1 exTabT exKeyK).1 1 exTabT exKeyK).2
      = Except.error (KVTSimple.Msg.keyNotFound exKeyK) :=
  get_after_del_fails c4S2 1 exTabT exKeyK (by decide) (by decide)

/-- The batch loop yields one result per operation. -/
theorem batchLoop_length {σ : Type} (E : KVTBatch.Engine σ) (txId : Nat)
    (ops : List KVTBatch.KVTOp) (st : σ) :
    (KVTBatch.batchLoop E txId st ops).2.length = ops.length := by
  induction ops generalizing st with
  | nil => rfl
  | cons op rest ih => simp [KVTBatch.batchLoop, ih]

/-- The i-th batch result is the result of the i-th operation executed in the
state reached by the preceding operations. -/
theorem batchLoop_get {σ : Type} (E : KVTBatch.Engine σ) (txId : Nat)
    (ops : List KVTBatch.KVTOp) (st : σ) (i : Nat) :
    (KVTBatch.batchLoop E txId st ops).2[i]?
      = (ops[i]?).map (fun op =>
          (KVTBatch.execOp E txId
            (KVTBatch.batchLoop E txId st (ops.take i)).1 op).2) := by
  induction ops generalizing st i with
  | nil => simp [KVTBatch.batchLoop]
  | cons op rest ih =>
    cases i with
    | zero => simp [KVTBatch.batchLoop]
    | succ n => simp [KVTBatch.batchLoop, ih]

/-- C5: `batch_execute` produces exactly one per-op result, in operation
order, each carrying the error code the operation itself returned in the
state left by the operations before it (so operations after a failing one are
still executed and reported); the aggregate code is SUCCESS exactly when
every per-op result is SUCCESS, and otherwise BATCH_NOT_FULLY_SUCCESS. -/
theorem batch_execute_contract {σ : Type} (E : KVTBatch.Engine σ) (txId : Nat)
    (st : σ) (ops : List KVTBatch.KVTOp) :
    (KVTBatch.batch_execute E txId st ops).2.1.length = ops.length ∧
    (∀ i : Nat,
      (KVTBatch.batch_execute E txId st ops).2.1[i]?
        = (ops[i]?).map (fun op =>
            (KVTBatch.execOp E txId
              (KVTBatch.batchLoop E txId st (ops.take i)).1 op).2)) ∧
    ((KVTBatch.batch_execute E txId st ops).2.2 = KVTBatch.KVTError.SUCCESS ↔
      ∀ r ∈ (KVTBatch.batch_execute E txId st ops).2.1,
        r.error = KVTBatch.KVTError.SUCCESS) ∧
    ((KVTBatch.batch_execute E txId st ops).2.2 = KVTBatch.KVTError.SUCCESS ∨
      (KVTBatch.batch_execute E txId st ops).2.2
        = KVTBatch.KVTError.BATCH_NOT_FULLY_SUCCESS) := by
  refine ⟨?_, ?_, ?_, ?_⟩
  · simpa [KVTBatch.batch_execute] using batchLoop_length E txId ops st
  · intro i
    simpa [KVTBatch.batch_execute] using batchLoop_get E txId ops st i
  · by_cases h : (KVTBatch.batchLoop E txId st ops).2.all
        (fun res => res.error = KVTBatch.KVTError.SUCCESS) = true
    · constructor
      · intro _ r hr
        have := List.all_eq_true.mp h r hr
        simpa using this
      · intro _
        simp [KVTBatch.batch_execute, h]
    · rw [Bool.not_eq_true] at h
      simp only [KVTBatch.batch_execute, h, Bool.false_eq_true, if_false]
      simp only [List.all_eq_false, decide_eq_true_eq] at h
      obtain ⟨r, hr, hrerr⟩ := h
      constructor
      · intro hcontra
        exact absurd hcontra (by simp)
      · intro hall
        exact absurd (hall r hr) hrerr
  · by_cases h : (KVTBatch.batchLoop E txId st ops).2.all
        (fun res => res.error = KVTBatch.KVTError.SUCCESS) = true
    · left
      simp [KVTBatch.batch_execute, h]
    · right
      rw [Bool.not_eq_true] at h
      simp [KVTBatch.batch_execute, h]

/-- C9: under the OCC variant, if some key in the committing transaction's
read-set — or a key lifted into the write-set carrying its observed
version — has a current entry version different from the observed one (an
absent key reads version 0, so a previously-absent key that has appeared also
mismatches), then `commit_transaction` fails with TRANSACTION_HAS_STALE_DATA,
installs no write or deletion (the table is unchanged) and discards the
transaction context. -/
theorem occ_commit_stale (s : KVTOCC.OCCState) (txId : Nat)
    (tx : KVTOCC.Transaction) (k : Str) (obs : Int)
    (hfind : KVTOCC.txFind s.txs txId = some tx)
    (hmem : (k, obs) ∈ tx.readSet ∨ ∃ v : Str, (k, v, some obs) ∈ tx.writeSet)
    (hne : KVTOCC.currentVersion s.table k ≠ obs) :
    KVTOCC.commit_transaction s txId
      = ({ s with txs := KVTOCC.txErase s.txs txId },
         KVTBatch.KVTError.TRANSACTION_HAS_STALE_DATA) := by
  have hval : KVTOCC.validate s.table tx = false := by
    apply Bool.eq_false_iff.mpr
    intro htrue
    unfold KVTOCC.validate at htrue
    rw [Bool.and_eq_true] at htrue
    obtain ⟨h1, h2⟩ := htrue
    rcases hmem with hr | ⟨v, hw⟩
    · have := List.all_eq_true.mp h1 (k, obs) hr
      simp only [decide_eq_true_eq] at this
      exact hne this
    · have := List.all_eq_true.mp h2 (k, v, some obs) hw
      simp only [decide_eq_true_eq] at this
      exact hne this
  unfold KVTOCC.commit_transaction
  rw [hfind]
  simp [hval]

/-- C9 witness: transaction 5 observed key "k" at version 1, but the entry is
meanwhile at version 2, so its commit aborts with stale data, leaves the
table unchanged and discards the context. -/
theorem occ_commit_stale_witness :
    KVTOCC.commit_transaction occExState 5
      = ({ occExState with txs := KVTOCC.txErase occExState.txs 5 },
         KVTBatch.KVTError.TRANSACTION_HAS_STALE_DATA) :=
  occ_commit_stale occExState 5 occExTx [107] 1 rfl
    (Or.inl (by simp [occExTx])) (by decide)

/-- C7 (divergence demonstration): the composite-key `get_all_columns` of the
`janusgraph-inmemory` adapter computes its scan start key as
`make_composite_key(key, "")`, whose empty-column validation throws for every
key, so the call never reaches the range scan and never succeeds — for any
engine scan function and any key it propagates the invalid-argument error. -/
theorem get_all_columns_mem_always_throws
    (scanF : Str → Str → Nat → Except String (List (Str × Str)))
    (key : Str) :
    JGAdapter.get_all_columns_mem scanF key
      = Except.error "Key or column contains separator or is empty" := by
  unfold JGAdapter.get_all_columns_mem
  have hmck : serialization.make_composite_key JGAdapter.SEP_MEM key []
      = Except.error "Key or column contains separator or is empty" := by
    unfold serialization.make_composite_key
    simp
  rw [hmck]

/-- Lexicographic strict order is asymmetric. -/
theorem ltLex_asymm : ∀ a b : Str,
    KVTCore.ltLex a b = true → KVTCore.ltLex b a = false
  | [], [] => by simp [KVTCore.ltLex]
  | [], _ :: _ => by simp [KVTCore.ltLex]
  | _ :: _, [] => by simp [KVTCore.ltLex]
  | a :: as, b :: bs => by
    intro h
    unfold KVTCore.ltLex at h ⊢
    by_cases hab : a < b
    · have hba : ¬ b < a := by omega
      simp [hab, hba]
    · by_cases hba : b < a
      · simp [hab, hba] at h
      · simp only [hab, hba, if_false] at h ⊢
        exact ltLex_asymm as bs h

/-- Strictly ascending columns are in particular `is_sorted` in the
non-strict sense checked by the serializer. -/
theorem sortedColsB_of_strict : ∀ l : List serialization.ColumnValue,
    serialization.strictSortedCols l = true → serialization.sortedColsB l = true
  | [] => by intro _; rfl
  | [_] => by intro _; rfl
  | a :: b :: rest => by
    intro h
    unfold serialization.strictSortedCols at h
    rw [Bool.and_eq_true] at h
    obtain ⟨hab, hrest⟩ := h
    unfold serialization.sortedColsB
    rw [Bool.and_eq_true]
    refine ⟨?_, sortedColsB_of_strict (b :: rest) hrest⟩
    unfold serialization.cvLt at hab ⊢
    simp [ltLex_asymm _ _ hab]

/-- Reading back 4 little-endian bytes written for a value below 2^32
recovers the value and leaves the remaining bytes. -/
theorem read32_le32 (n : Nat) (h : n < 4294967296) (rest : List Nat) :
    serialization.read32 (serialization.le32 n ++ rest) = some (n, rest) := by
  have hm : n % 4294967296 = n := Nat.mod_eq_of_lt h
  unfold serialization.le32
  simp only [hm, List.cons_append, List.nil_append]
  unfold serialization.read32
  simp only [Option.some.injEq, Prod.mk.injEq, and_true]
  omega

/-- Parsing the declared number of encoded pairs recovers exactly the encoded
column-value list, provided every column and value is shorter than 2^32. -/
theorem parseLoop_encodePair : ∀ cols : List serialization.ColumnValue,
    (∀ cv ∈ cols, cv.column.length < 4294967296 ∧ cv.value.length < 4294967296) →
    serialization.parseLoop cols.length
      (cols.flatMap serialization.encodePair) = cols
  | [], _ => by simp [serialization.parseLoop]
  | cv :: t, hsz => by
    obtain ⟨hc, hv⟩ := hsz cv (List.mem_cons_self cv t)
    have henc : serialization.encodePair cv
        = serialization.le32 cv.column.length ++
          (cv.column ++
            (serialization.le32 cv.value.length ++ cv.value)) := by
      unfold serialization.encodePair
      rw [Nat.mod_eq_of_lt hc, Nat.mod_eq_of_lt hv,
        List.take_length, List.take_length]
      simp [List.append_assoc]
    rw [List.flatMap_cons, List.length_cons, henc]
    simp only [List.append_assoc]
    unfold serialization.parseLoop
    rw [read32_le32 _ hc]
    dsimp only
    rw [if_neg (by simp), List.take_left, List.drop_left]
    rw [read32_le32 _ hv]
    dsimp only
    rw [if_neg (by simp), List.take_left, List.drop_left]
    rw [parseLoop_encodePair t (fun x hx => hsz x (List.mem_cons_of_mem cv hx))]

/-- C6 (amended): the Layout A framing round-trip holds for every non-empty
sequence of column-value pairs that is strictly sorted by column (sorted with
distinct columns), provided the sequence and each column and value are
shorter than 2^32 — the lengths the frame stores as `uint32_t`:
`deserialize_columns` of `serialize_columns` returns exactly the input
pairs in order. -/
theorem serialize_roundtrip (cols : List serialization.ColumnValue)
    (hne : cols ≠ [])
    (hlen : cols.length < 4294967296)
    (hsorted : serialization.strictSortedCols cols = true)
    (hsz : ∀ cv ∈ cols,
      cv.column.length < 4294967296 ∧ cv.value.length < 4294967296) :
    (serialization.serialize_columns cols).bind serialization.deserialize_columns
      = Except.ok cols := by
  have hnz : ¬ cols.length % 4294967296 = 0 := by
    rw [Nat.mod_eq_of_lt hlen]
    simpa using hne
  have hsortB := sortedColsB_of_strict cols hsorted
  unfold serialization.serialize_columns
  rw [if_neg hnz, if_pos hsortB]
  show serialization.deserialize_columns
      (serialization.le32 cols.length ++ cols.flatMap serialization.encodePair)
    = Except.ok cols
  unfold serialization.deserialize_columns
  rw [if_neg (by simp [serialization.le32]), read32_le32 _ hlen]
  dsimp only
  rw [parseLoop_encodePair cols hsz]
  rw [if_neg (by simpa using hne), if_pos hsortB]

/-- C6 witness: the round-trip at the concrete one-column sequence
[("a","x")]. -/
theorem serialize_roundtrip_witness :
    (serialization.serialize_columns c6SmallCols).bind
        serialization.deserialize_columns
      = Except.ok c6SmallCols :=
  serialize_roundtrip c6SmallCols (by decide) (by decide) (by decide) (by decide)

/-- The frame bytes `encodePair` emits for the huge-value pair: the value
length wraps to the `uint32_t` 0 and zero value bytes follow. -/
theorem encodePair_huge_value :
    serialization.encodePair ⟨[97], List.replicate 4294967296 0⟩
      = [1, 0, 0, 0] ++ ([97] ++ ([0, 0, 0, 0] ++ [])) := by
  simp only [serialization.encodePair, List.length_replicate, List.length_cons,
    List.length_nil, Nat.mod_self, List.take_zero]
  norm_num [serialization.le32]

/-- Serializing the huge-value pair succeeds and yields a 13-byte frame whose
declared value length is 0. -/
theorem serialize_huge_value :
    serialization.serialize_columns c6BadCols
      = Except.ok [1, 0, 0, 0, 1, 0, 0, 0, 97, 0, 0, 0, 0] := by
  have hlen1 : c6BadCols.length = 1 := rfl
  unfold serialization.serialize_columns
  rw [if_neg (by rw [hlen1]; decide),
    if_pos (show serialization.sortedColsB c6BadCols = true from rfl), hlen1]
  rw [show c6BadCols = [⟨[97], List.replicate 4294967296 0⟩] from rfl,
    List.flatMap_cons, List.flatMap_nil, encodePair_huge_value]
  rfl

/-- C6 (counterexample): the round-trip fails at the singleton sequence whose
value is 2^32 bytes of zeros — the claim's hypotheses (non-empty, sorted,
distinct columns) hold, yet the serializer writes the value length as the
wrapped `uint32_t` 0 with zero value bytes, so deserialization returns the
pair with an empty value instead of the original pair. -/
theorem roundtrip_fails_on_huge_value :
    c6BadCols ≠ [] ∧
    serialization.strictSortedCols c6BadCols = true ∧
    (serialization.serialize_columns c6BadCols).bind
        serialization.deserialize_columns
      = Except.ok [⟨[97], []⟩] ∧
    ([⟨[97], []⟩] : List serialization.ColumnValue) ≠ c6BadCols := by
  refine ⟨?_, rfl, ?_, ?_⟩
  · intro h
    exact absurd (congrArg List.length h) (by decide)
  · rw [serialize_huge_value]
    decide
  · intro h
    have h2 : ([] : Str) = List.replicate 4294967296 0 :=
      congrArg (fun l : List serialization.ColumnValue =>
        (l.headD ⟨[], []⟩).value) h
    have h3 := congrArg List.length h2
    simp only [List.length_nil, List.length_replicate] at h3
    exact absurd h3 (by decide)

/-- C8 (counterexample): the frame `c8Frame` declares 2 columns but contains
the bytes of only one; `deserialize_columns` silently returns the parsed
prefix [("a","x")] as a success instead of reporting an error. -/
theorem deserialize_truncates_inconsistent_frame :
    serialization.deserialize_columns c8Frame = Except.ok [⟨[97], [120]⟩] := by
  decide

/-- C8 (amended): `deserialize_columns` never reads beyond the input (every
read is bounds-checked), rejects empty input, and rejects any parse whose
columns are not sorted: every successfully returned column list satisfies the
`is_sorted` check.  A frame whose declared column count or lengths exceed the
available bytes is however not rejected — parsing stops at the first
inconsistency and the prefix parsed so far is returned without error. -/
theorem deserialize_ok_sorted (data : List Nat)
    (r : List serialization.ColumnValue)
    (h : serialization.deserialize_columns data = Except.ok r) :
    serialization.sortedColsB r = true := by
  unfold serialization.deserialize_columns at h
  split at h
  · exact absurd h (by simp)
  · split at h
    · simp only [Except.ok.injEq] at h
      subst h
      rfl
    · dsimp only at h
      split at h
      · rename_i hemp
        simp only [Except.ok.injEq] at h
        subst h
        rw [List.isEmpty_iff] at hemp
        rw [hemp]
        rfl
      · split at h
        · rename_i hsort
          simp only [Except.ok.injEq] at h
          subst h
          exact hsort
        · exact absurd h (by simp)

/-- C8 witness: the sortedness guarantee applied to the consistent one-column
frame `c8GoodFrame`. -/
theorem deserialize_ok_sorted_witness :
    serialization.sortedColsB [⟨[97], [120]⟩] = true :=
  deserialize_ok_sorted c8GoodFrame [⟨[97], [120]⟩] (by decide)
